import Mathlib

/-!
Verification of the multi-strategy YouTube transcript resolution engine.

Shallow embedding of the Python sources: `youtube_html_fetcher.py`,
`youtube_hybrid_fetcher.py`, `youtube_data_api_fetcher.py`, `app.py`.
Network and JSON inputs are modelled as explicit environment values; machine
floats (timestamps) are modelled as rationals; Python `None` as `Option`.
-/

set_option maxRecDepth 8000

namespace YT

/-- One transcript segment, as the Python dicts `{"text", "start", "duration", ...}`
produced across the fetchers.  Optional dict keys (`isUnavailableMessage`,
`hasCaptions`, `requiresOAuth`, `errorDetails`) are modelled as fields holding the
falsy Python defaults when the key is absent.  Times are rationals standing for
the Python floats. -/
structure Segment where
  text : String
  start : ℚ
  duration : ℚ
  isUnavailableMessage : Bool := false
  hasCaptions : Bool := false
  requiresOAuth : Bool := false
  errorDetails : String := ""
  deriving DecidableEq

/-- One entry of a JSON3 `segs` array; `utf8 := none` models a seg dict without
a `utf8` key (the code tests `'utf8' in seg`). -/
structure Json3Seg where
  utf8 : Option String
  deriving DecidableEq

/-- One JSON3 caption event: `segs := none` models an event dict without a
`segs` key (the code tests `'segs' not in event`); `tStartMs` and `dDurationMs`
default to `0` as in `event.get('tStartMs', 0)`. -/
structure Json3Event where
  segs : Option (List Json3Seg)
  tStartMs : ℚ := 0
  dDurationMs : ℚ := 0
  deriving DecidableEq

/-- Python `str.strip()` on the character list: drop leading and trailing
whitespace. -/
def stripChars (cs : List Char) : List Char :=
  ((cs.dropWhile Char.isWhitespace).reverse.dropWhile Char.isWhitespace).reverse

/-- Python `str.strip()` (ASCII whitespace suffices for the inputs modelled
here). -/
def pyStrip (s : String) : String := String.mk (stripChars s.data)

/-- The JSON3 event loop of `YouTubeHTMLTranscriptFetcher.get_transcript`
(`youtube_html_fetcher.py` lines 126-143): events without `segs` are skipped;
for an event with `segs`, the `utf8` fields are collected, joined and
whitespace-stripped, and a segment is appended only when at least one `utf8`
field was present (`if text_parts:`); `start = tStartMs/1000`,
`duration = dDurationMs/1000`. -/
def normalizeJson3 (events : List Json3Event) : List Segment :=
  events.filterMap fun event =>
    match event.segs with
    | none => none
    | some segs =>
      let textParts := segs.filterMap Json3Seg.utf8
      if textParts.isEmpty then none
      else some { text := pyStrip (String.join textParts)
                  start := event.tStartMs / 1000
                  duration := event.dDurationMs / 1000 }

/-- Claim C7 counterexample: the claim says each event with a `segs` array maps
to one segment whose `text` equals the concatenation of the `utf8` fields, but
the code strips surrounding whitespace from the joined text.  On the claim's own
fixture shape (one event lacking `segs`, one event with two `segs`), the produced
`text` "a b" differs from the concatenation "a b ". -/
theorem C7_counterexample :
    normalizeJson3 [{ segs := none },
                    { segs := some [⟨some "a "⟩, ⟨some "b "⟩], tStartMs := 1000, dDurationMs := 2000 }] =
      [{ text := "a b", start := 1000 / 1000, duration := 2000 / 1000 }] ∧
    (1000 : ℚ) / 1000 = 1 ∧ (2000 : ℚ) / 1000 = 2 ∧
    "a b" ≠ "a " ++ "b " := by
  refine ⟨rfl, by norm_num, by norm_num, by decide⟩

/-- Claim C7 (amended): JSON3 normalization skips every event without a `segs`
array, and on a payload with one event lacking `segs` and one event with two
`utf8`-bearing segs it produces exactly one segment whose `text` is the
whitespace-stripped concatenation of both `utf8` fields, with
`start = tStartMs/1000` and `duration = dDurationMs/1000`. -/
theorem C7_json3_normalization :
    ∀ (u1 u2 : String) (t1 d1 t2 d2 : ℚ) (rest : List Json3Event),
    normalizeJson3 ({ segs := none, tStartMs := t1, dDurationMs := d1 } :: rest) =
      normalizeJson3 rest ∧
    normalizeJson3 [{ segs := none, tStartMs := t1, dDurationMs := d1 },
                    { segs := some [⟨some u1⟩, ⟨some u2⟩], tStartMs := t2, dDurationMs := d2 }] =
      [{ text := pyStrip (u1 ++ u2), start := t2 / 1000, duration := d2 / 1000 }] := by
  intro u1 u2 t1 d1 t2 d2 rest
  exact ⟨rfl, rfl⟩

/-! ## `extract_video_id`

The same function appears verbatim in `youtube_html_fetcher.py` (lines 16-33),
`youtube_hybrid_fetcher.py` (lines 66-87, fallback branch),
`youtube_transcript_fetcher.py` (lines 22-47) and several sibling modules.  It
applies `re.search` with two anchored patterns:

  standard: `^.*((youtu.be\/)|(v\/)|(\/u\/\w\/)|(embed\/)|(watch\?))\??v?=?([^#&?]*)`
  shorts:   `^.*((youtube.com\/shorts\/)([^#&?]*))`

Embedding of the Python regex semantics: the greedy `.*` (which does not match
a newline) makes the engine match the alternative at the largest possible
position; the alternatives start with pairwise distinct characters, so at most
one matches at a given position; everything after the alternative is optional,
so no further backtracking occurs and the optional literals `\??v?=?` simply
consume their character when present, after which group 7 takes the longest run
of characters outside `#&?`. -/

/-- ASCII word character, the `\w` of the standard pattern (no modelled input
contains non-ASCII word characters). -/
def isWordChar (c : Char) : Bool := c.isAlphanum || c == '_'

/-- The alternative `(youtu.be\/)`: literal `youtu`, any non-newline character
(the unescaped `.`), literal `be/`; consumes 9 characters. -/
def matchYoutuBe (cs : List Char) : Option Nat :=
  if cs.take 5 = [ 'y', 'o', 'u', 't', 'u' ] ∧ (cs.drop 6).take 3 = [ 'b', 'e', '/' ] ∧
      cs.getD 5 ' ' ≠ '\n' then some 9 else none

/-- The alternative `(v\/)`. -/
def matchVSlash (cs : List Char) : Option Nat :=
  if cs.take 2 = [ 'v', '/' ] then some 2 else none

/-- The alternative `(\/u\/\w\/)`. -/
def matchUSlash (cs : List Char) : Option Nat :=
  if cs.take 3 = [ '/', 'u', '/' ] ∧ isWordChar (cs.getD 3 ' ') ∧
      (cs.drop 4).take 1 = [ '/' ] then some 5 else none

/-- The alternative `(embed\/)`. -/
def matchEmbed (cs : List Char) : Option Nat :=
  if cs.take 6 = [ 'e', 'm', 'b', 'e', 'd', '/' ] then some 6 else none

/-- The alternative `(watch\?)`. -/
def matchWatch (cs : List Char) : Option Nat :=
  if cs.take 6 = [ 'w', 'a', 't', 'c', 'h', '?' ] then some 6 else none

/-- The full alternation of the standard pattern, tried in source order (the
alternatives begin with distinct characters, so order is immaterial here). -/
def altMatchLen (cs : List Char) : Option Nat :=
  match matchYoutuBe cs with
  | some k => some k
  | none =>
    match matchVSlash cs with
    | some k => some k
    | none =>
      match matchUSlash cs with
      | some k => some k
      | none =>
        match matchEmbed cs with
        | some k => some k
        | none => matchWatch cs

/-- The literal body of the shorts pattern, `youtube.com\/shorts\/`: literal
`youtube`, any non-newline character (the unescaped `.`), literal
`com/shorts/`; consumes 19 characters. -/
def matchShorts (cs : List Char) : Option Nat :=
  if cs.take 7 = [ 'y', 'o', 'u', 't', 'u', 'b', 'e' ] ∧
      (cs.drop 8).take 11 = [ 'c', 'o', 'm', '/', 's', 'h', 'o', 'r', 't', 's', '/' ] ∧
      cs.getD 7 ' ' ≠ '\n' then some 19 else none

/-- Whether every character can be consumed by `.` (which never matches a
newline). -/
def noNewline (cs : List Char) : Bool := cs.all (· != '\n')

/-- Backtracking search for `^.*(alt)…`: greedy `.*` tries the longest
newline-free prefix first, so the overall match places the alternative at the
largest possible position.  Returns that position and the consumed length. -/
def searchAux (alt : List Char → Option Nat) (url : List Char) : Nat → Option (Nat × Nat)
  | 0 => (if noNewline (url.take 0) then alt (url.drop 0) else none).map fun k => (0, k)
  | n + 1 =>
    match (if noNewline (url.take (n + 1)) then alt (url.drop (n + 1)) else none).map
        (fun k => (n + 1, k)) with
    | some r => some r
    | none => searchAux alt url n

/-- `re.search` for an anchored pattern `^.*(alt)…` whose tail after the
alternative always matches. -/
def reSearch (alt : List Char → Option Nat) (url : List Char) : Option (Nat × Nat) :=
  searchAux alt url url.length

/-- One optional literal (`\??`, `v?`, `=?`): consume the character when
present; the rest of the pattern always matches, so the greedy option never
needs to backtrack. -/
def consumeOpt (c : Char) : List Char → List Char
  | [] => []
  | x :: rest => if x = c then rest else x :: rest

/-- The character class `[^#&?]` of the trailing capture groups. -/
def group7Char (c : Char) : Bool := c != '#' && c != '&' && c != '?'

/-- Group 7 of the standard pattern: after the alternative, consume the
optional `?`, `v`, `=`, then capture the longest run outside `#&?`. -/
def group7From (url : List Char) (pk : Nat × Nat) : List Char :=
  (consumeOpt '=' (consumeOpt 'v' (consumeOpt '?' (url.drop (pk.1 + pk.2))))).takeWhile group7Char

/-- `match.group(7)` of `re.search(standard_pattern, url)`, `none` when the
pattern does not match. -/
def standardGroup7 (url : List Char) : Option (List Char) :=
  (reSearch altMatchLen url).map (group7From url)

/-- `match.group(3)` of `re.search(shorts_pattern, url)`, `none` when the
pattern does not match. -/
def shortsGroup3 (url : List Char) : Option (List Char) :=
  (reSearch matchShorts url).map fun pk => (url.drop (pk.1 + pk.2)).takeWhile group7Char

/-- The shorts fallback block of `extract_video_id`: return `match.group(3)`
when the shorts pattern matched and the group is non-empty (truthy). -/
def shortsResult (url : String) : Option String :=
  match shortsGroup3 url.data with
  | some g3 => if g3 ≠ [] then some (String.mk g3) else none
  | none => none

/-- `extract_video_id` (`youtube_html_fetcher.py` lines 16-33): `None` on empty
input; the standard pattern's group 7 when it is truthy and 11 characters long;
otherwise the shorts pattern's group 3 when truthy; otherwise `None`. -/
def extract_video_id (url : String) : Option String :=
  if url = "" then none
  else
    match standardGroup7 url.data with
    | some g7 => if g7 ≠ [] ∧ g7.length = 11 then some (String.mk g7) else shortsResult url
    | none => shortsResult url

/-- Characters of the 11-character identifier grammar `[A-Za-z0-9_-]`. -/
def idChar (c : Char) : Bool := c.isAlphanum || c == '_' || c == '-'

theorem matchYoutuBe_delim {cs : List Char} {k : Nat} (h : matchYoutuBe cs = some k) :
    '/' ∈ cs ∨ '?' ∈ cs := by
  unfold matchYoutuBe at h
  split at h
  · rename_i hc
    refine Or.inl ?_
    have : '/' ∈ (cs.drop 6).take 3 := by rw [hc.2.1]; simp
    exact List.drop_subset 6 cs (List.take_subset 3 _ this)
  · exact absurd h (by simp)

theorem matchVSlash_delim {cs : List Char} {k : Nat} (h : matchVSlash cs = some k) :
    '/' ∈ cs ∨ '?' ∈ cs := by
  unfold matchVSlash at h
  split at h
  · rename_i hc
    refine Or.inl ?_
    have : '/' ∈ cs.take 2 := by rw [hc]; simp
    exact List.take_subset 2 cs this
  · exact absurd h (by simp)

theorem matchUSlash_delim {cs : List Char} {k : Nat} (h : matchUSlash cs = some k) :
    '/' ∈ cs ∨ '?' ∈ cs := by
  unfold matchUSlash at h
  split at h
  · rename_i hc
    refine Or.inl ?_
    have : '/' ∈ cs.take 3 := by rw [hc.1]; simp
    exact List.take_subset 3 cs this
  · exact absurd h (by simp)

theorem matchEmbed_delim {cs : List Char} {k : Nat} (h : matchEmbed cs = some k) :
    '/' ∈ cs ∨ '?' ∈ cs := by
  unfold matchEmbed at h
  split at h
  · rename_i hc
    refine Or.inl ?_
    have : '/' ∈ cs.take 6 := by rw [hc]; simp
    exact List.take_subset 6 cs this
  · exact absurd h (by simp)

theorem matchWatch_delim {cs : List Char} {k : Nat} (h : matchWatch cs = some k) :
    '/' ∈ cs ∨ '?' ∈ cs := by
  unfold matchWatch at h
  split at h
  · rename_i hc
    refine Or.inr ?_
    have : '?' ∈ cs.take 6 := by rw [hc]; simp
    exact List.take_subset 6 cs this
  · exact absurd h (by simp)

/-- Every alternative of the standard pattern consumes a `/` or a `?`. -/
theorem altMatchLen_delim {cs : List Char} {k : Nat} (h : altMatchLen cs = some k) :
    '/' ∈ cs ∨ '?' ∈ cs := by
  unfold altMatchLen at h
  split at h
  · exact matchYoutuBe_delim (by assumption)
  split at h
  · exact matchVSlash_delim (by assumption)
  split at h
  · exact matchUSlash_delim (by assumption)
  split at h
  · exact matchEmbed_delim (by assumption)
  · exact matchWatch_delim h

/-- The shorts pattern consumes a `/`. -/
theorem matchShorts_delim {cs : List Char} {k : Nat} (h : matchShorts cs = some k) :
    '/' ∈ cs := by
  unfold matchShorts at h
  split at h
  · rename_i hc
    have : '/' ∈ (cs.drop 8).take 11 := by rw [hc.2.1]; simp
    exact List.drop_subset 8 cs (List.take_subset 11 _ this)
  · exact absurd h (by simp)

theorem searchAux_eq_none {alt : List Char → Option Nat} {url : List Char}
    (h : ∀ p, alt (url.drop p) = none) : ∀ n, searchAux alt url n = none := by
  intro n
  induction n with
  | zero => simpa [searchAux, noNewline] using h 0
  | succ n ih => simp [searchAux, h (n + 1), ih]

/-- Claim C2 (amended): for every string that matches the 11-character
identifier grammar exactly (a bare ID), `extract_video_id` returns `None`
rather than the string itself: every alternative of both URL patterns requires
a `/` or `?`, neither of which belongs to the grammar, so neither pattern can
match a bare identifier. -/
theorem C2_bare_id_not_found :
    ∀ s : String, s.length = 11 → s.data.all idChar → extract_video_id s = none := by
  intro s h11 hid
  have hchar : ∀ c ∈ s.data, idChar c = true := by
    simpa [List.all_eq_true] using hid
  have hnodelim : ∀ c, c ∈ s.data → c = '/' ∨ c = '?' → False := by
    intro c hc hor
    have := hchar c hc
    rcases hor with rfl | rfl <;> simp [idChar] at this
  have hstdNone : ∀ p, altMatchLen (s.data.drop p) = none := by
    intro p
    cases hm : altMatchLen (s.data.drop p) with
    | none => rfl
    | some k =>
      exfalso
      rcases altMatchLen_delim hm with hc | hc
      · exact hnodelim '/' (List.drop_subset p s.data hc) (Or.inl rfl)
      · exact hnodelim '?' (List.drop_subset p s.data hc) (Or.inr rfl)
  have hshortsNone : ∀ p, matchShorts (s.data.drop p) = none := by
    intro p
    cases hm : matchShorts (s.data.drop p) with
    | none => rfl
    | some k =>
      exact absurd (hnodelim '/' (List.drop_subset p s.data (matchShorts_delim hm)) (Or.inl rfl))
        not_false
  have hne : s ≠ "" := by
    intro hs
    rw [hs] at h11
    simp [String.length] at h11
  unfold extract_video_id
  rw [if_neg hne]
  have h1 : standardGroup7 s.data = none := by
    unfold standardGroup7 reSearch
    rw [searchAux_eq_none hstdNone]
    rfl
  have h2 : shortsResult s = none := by
    unfold shortsResult shortsGroup3 reSearch
    rw [searchAux_eq_none hshortsNone]
    rfl
  rw [h1, h2]

/-- Claim C2 witness: the canonical bare identifier is 11 characters of the
grammar, and `extract_video_id` maps it to `None`. -/
theorem C2_bare_id_witness :
    ("dQw4w9WgXcQ" : String).length = 11 ∧ ("dQw4w9WgXcQ" : String).data.all idChar ∧
      extract_video_id "dQw4w9WgXcQ" = none :=
  ⟨by decide, by decide, C2_bare_id_not_found "dQw4w9WgXcQ" (by decide) (by decide)⟩

/-- Claim C2 counterexample: the claim says a bare 11-character identifier is
returned unchanged, but `extract_video_id` on the bare ID `dQw4w9WgXcQ` yields
`None`, not the identifier. -/
theorem C2_counterexample :
    extract_video_id "dQw4w9WgXcQ" = none ∧
      extract_video_id "dQw4w9WgXcQ" ≠ some "dQw4w9WgXcQ" := by
  constructor
  · decide
  · decide

theorem all_takeWhile {α : Type} (p : α → Bool) (l : List α) : (l.takeWhile p).all p = true := by
  induction l with
  | nil => rfl
  | cons a l ih =>
    cases h : p a with
    | true => simp [List.takeWhile_cons, h, ih]
    | false => simp [List.takeWhile_cons, h]

theorem shortsResult_spec {url : String} {v : String} (h : shortsResult url = some v) :
    v ≠ "" ∧ v.data.all group7Char ∧ shortsGroup3 url.data = some v.data := by
  unfold shortsResult at h
  split at h
  · rename_i g3 hg
    split at h
    · rename_i hne
      injection h with h'
      subst h'
      refine ⟨?_, ?_, ?_⟩
      · intro hemp
        exact hne (by simpa using congrArg String.data hemp)
      · rcases Option.map_eq_some'.mp hg with ⟨pk, _, hf⟩
        have : g3.all group7Char = true := by
          rw [← hf]; exact all_takeWhile group7Char _
        exact this
      · exact hg
    · exact absurd h (by simp)
  · exact absurd h (by simp)

/-- Claim C6 counterexample: the claim says every successful extraction is 11
characters drawn from `[A-Za-z0-9_-]`, but the shorts branch has no length
check (a 3-character ID is returned) and the standard branch checks only
length, not the character set (an 11-character group with dots is returned). -/
theorem C6_counterexample :
    (extract_video_id "https://www.youtube.com/shorts/abc" = some "abc" ∧
      ("abc" : String).length ≠ 11) ∧
    (extract_video_id "https://www.youtube.com/watch?v=abc.def.ghi" = some "abc.def.ghi" ∧
      ("abc.def.ghi" : String).data.all idChar = false) := by
  refine ⟨⟨by decide, by decide⟩, ⟨by decide, by decide⟩⟩

/-- Claim C6 (amended): whenever `extract_video_id` succeeds, the returned
identifier is non-empty and contains none of `#`, `&`, `?`; when it comes from
the standard pattern it is exactly 11 characters long, but a shorts-pattern
result has no length constraint, and neither branch restricts to
`[A-Za-z0-9_-]`. -/
theorem C6_success_shape :
    ∀ url v : String, extract_video_id url = some v →
      v ≠ "" ∧ v.data.all group7Char ∧
      ((standardGroup7 url.data = some v.data ∧ v.length = 11) ∨
        shortsGroup3 url.data = some v.data) := by
  intro url v h
  unfold extract_video_id at h
  by_cases hv : url = ""
  · rw [if_pos hv] at h; exact absurd h (by simp)
  rw [if_neg hv] at h
  split at h
  · rename_i g7 hg
    split at h
    · rename_i hcond
      injection h with h'
      subst h'
      refine ⟨?_, ?_, Or.inl ⟨hg, hcond.2⟩⟩
      · intro hemp
        exact hcond.1 (by simpa using congrArg String.data hemp)
      · rcases Option.map_eq_some'.mp hg with ⟨pk, _, hf⟩
        have : g7.all group7Char = true := by
          rw [← hf]
          unfold group7From
          exact all_takeWhile group7Char _
        exact this
    · rcases shortsResult_spec h with ⟨h1, h2, h3⟩
      exact ⟨h1, h2, Or.inr h3⟩
  · rcases shortsResult_spec h with ⟨h1, h2, h3⟩
    exact ⟨h1, h2, Or.inr h3⟩

/-- Claim C6 witness: a watch-URL extraction satisfying the amended shape
theorem, with the hypothesis discharged on a concrete URL. -/
theorem C6_success_shape_witness :
    extract_video_id "https://youtu.be/dQw4w9WgXcQ" = some "dQw4w9WgXcQ" ∧
      ("dQw4w9WgXcQ" : String) ≠ "" ∧
      ("dQw4w9WgXcQ" : String).data.all group7Char ∧
      ((standardGroup7 ("https://youtu.be/dQw4w9WgXcQ" : String).data =
          some ("dQw4w9WgXcQ" : String).data ∧ ("dQw4w9WgXcQ" : String).length = 11) ∨
        shortsGroup3 ("https://youtu.be/dQw4w9WgXcQ" : String).data =
          some ("dQw4w9WgXcQ" : String).data) :=
  ⟨by decide, C6_success_shape "https://youtu.be/dQw4w9WgXcQ" "dQw4w9WgXcQ" (by decide)⟩

/-! ## The hybrid orchestrator (`youtube_hybrid_fetcher.py`)

`get_transcript` (lines 89-152) walks a fixed method list; each method either
returns a Python value (`None` or a list of segment dicts) or raises.  A
truthy return (non-empty list) is returned immediately; an exception is caught
and recorded in `self.errors`; exhaustion returns the one-element fallback
sentinel.  The HTML strategy and the Data API strategy are embedded concretely
below; the five purely network-driven strategies are abstracted to their
observable outcome. -/

/-- Result of invoking one strategy method: a returned Python value (`None` or
a list of segments) or a raised exception with its message. -/
inductive MethodOutcome where
  | ok (res : Option (List Segment))
  | exc (msg : String)
  deriving DecidableEq

/-- Python truthiness of the `transcript` variable (`None` and `[]` are
falsy). -/
def truthy : Option (List Segment) → Bool
  | some (_ :: _) => true
  | _ => false

/-- A method outcome that does not short-circuit the loop: a falsy return or a
raised exception. -/
def outcomeFails : MethodOutcome → Bool
  | .ok res => !truthy res
  | .exc _ => true

/-- The `error_details` accumulation of lines 141-143: one line per recorded
error. -/
def errorDetailsString (errors : List (String × String)) : String :=
  String.join (errors.map fun e => "Method " ++ e.1 ++ ": " ++ e.2 ++ "\n")

/-- The unavailability sentinel text (identical in
`YouTubeHTMLTranscriptFetcher._create_error_response` and in the orchestrator
fallback). -/
def unavailableText (videoId : String) : String :=
  "I\x27m sorry, the transcript for this video (" ++ videoId ++
    ") is unavailable. The video likely doesn\x27t have captions enabled or they\x27re not accessible. Please try a different video with captions enabled."

/-- `_create_error_response` (`youtube_html_fetcher.py` lines 167-174). -/
def create_error_response (videoId : String) : List Segment :=
  [{ text := unavailableText videoId, start := 0, duration := 10,
     isUnavailableMessage := true }]

/-- The all-strategies-failed fallback segment (`youtube_hybrid_fetcher.py`
lines 146-152), carrying the accumulated error details. -/
def fallbackSegment (videoId : String) (errors : List (String × String)) : Segment :=
  { text := unavailableText videoId, start := 0, duration := 10,
    isUnavailableMessage := true, errorDetails := errorDetailsString errors }

/-- Observable outcome of one `get_transcript` run: the returned list, the
methods invoked in order, and the recorded `self.errors`. -/
structure RunState where
  result : List Segment
  invoked : List String
  errors : List (String × String)
  deriving DecidableEq

/-- The method loop of `get_transcript` (lines 118-152): invoke each method in
order; a truthy return short-circuits; an exception appends
`(method, error)` to `self.errors` and continues; when the list is exhausted,
the fallback sentinel (with the accumulated error details) is returned. -/
def runMethods (videoId : String) (errors : List (String × String)) :
    List (String × MethodOutcome) → RunState
  | [] => { result := [fallbackSegment videoId errors], invoked := [], errors := errors }
  | (name, out) :: rest =>
    match out with
    | .ok res =>
      if truthy res then
        { result := res.getD [], invoked := [name], errors := errors }
      else
        let s := runMethods videoId errors rest
        { s with invoked := name :: s.invoked }
    | .exc e =>
      let s := runMethods videoId (errors ++ [(name, e)]) rest
      { s with invoked := name :: s.invoked }

/-- The `(method, error)` pairs of the raising methods, in order. -/
def excEntries (ms : List (String × MethodOutcome)) : List (String × String) :=
  ms.filterMap fun p =>
    match p.2 with
    | .exc e => some (p.1, e)
    | .ok _ => none

/-! ### The HTML strategy (`youtube_html_fetcher.py`) -/

/-- One caption track of the player response (`captionTracks`); missing JSON
keys are `none`. -/
structure CaptionTrack where
  languageCode : Option String
  baseUrl : Option String
  deriving DecidableEq

/-- Python truthiness of an optional string (`None` and `""` are falsy). -/
def truthyStr : Option String → Bool
  | none => false
  | some s => !(s == "")

/-- The three-tier track selection of lines 80-104: the first track matching
the requested language, else the first `en` track, else the first track; each
tier reads that track's `baseUrl`, which may itself be missing or empty. -/
def selectBaseUrl (tracks : List CaptionTrack) (language : String) : Option String :=
  let b1 := match tracks.find? (fun t => t.languageCode == some language) with
            | some t => t.baseUrl
            | none => none
  let b2 := if truthyStr b1 then b1 else
            match tracks.find? (fun t => t.languageCode == some "en") with
            | some t => t.baseUrl
            | none => none
  if truthyStr b2 then b2 else
    match tracks.head? with
    | some t => t.baseUrl
    | none => none

/-- Environment of one HTML-method run: the observable network and parse
results.  `playerTracks := none` models a missing `ytInitialPlayerResponse` or
a player-response parse failure; `captionJson := none` models a caption-JSON
parse failure; statuses are the two HTTP codes. -/
structure HtmlEnv where
  pageStatus : Nat
  playerTracks : Option (List CaptionTrack)
  captionStatus : Nat
  captionJson : Option (List Json3Event)
  deriving DecidableEq

/-- `YouTubeHTMLTranscriptFetcher.get_transcript` (lines 35-165): every
failure path returns `_create_error_response` (a truthy one-element list!);
a successful caption fetch is JSON3-normalized and returned only when
non-empty. -/
def htmlGetTranscript (env : HtmlEnv) (videoId language : String) : List Segment :=
  if env.pageStatus ≠ 200 then create_error_response videoId
  else match env.playerTracks with
  | none => create_error_response videoId
  | some tracks =>
    if tracks = [] then create_error_response videoId
    else if ¬ truthyStr (selectBaseUrl tracks language) = true then
      create_error_response videoId
    else if env.captionStatus ≠ 200 then create_error_response videoId
    else match env.captionJson with
    | none => create_error_response videoId
    | some events =>
      let segments := normalizeJson3 events
      if segments = [] then create_error_response videoId else segments

/-! ### The Data API strategy (`youtube_hybrid_fetcher.py` lines 363-401) -/

/-- One item of the Data API videos response; `caption` models
`items[0].get("contentDetails", {}).get("caption", "")`. -/
structure VideoItem where
  caption : String
  deriving DecidableEq

/-- Environment of one `_method_youtube_data_api` run; `resp := none` models a
raised requests/JSON exception (caught: the method returns `None`), otherwise
the HTTP status and the parsed `items`. -/
structure DataApiEnv where
  apiKeyPresent : Bool
  resp : Option (Nat × List VideoItem)
  deriving DecidableEq

/-- The OAuth notice text returned when captions exist but need OAuth. -/
def dataApiNoticeText (videoId : String) : String :=
  "This video (" ++ videoId ++
    ") has captions available, but accessing them requires YouTube OAuth authentication which is not configured correctly. Please try a different fetching method or contact the developer."

/-- `_method_youtube_data_api`: with an API key, query the videos endpoint;
when the first item's caption flag lowercases to `"true"`, return the single
flagged OAuth notice; on every other path (no key, exception, bad status, no
items, flag false) return `None`. -/
def method_youtube_data_api (env : DataApiEnv) (videoId language : String) :
    Option (List Segment) :=
  if ¬ env.apiKeyPresent = true then none
  else match env.resp with
  | none => none
  | some (status, items) =>
    if status ≠ 200 then none
    else match items with
    | [] => none
    | item :: _ =>
      if item.caption.toLower == "true" then
        some [{ text := dataApiNoticeText videoId, start := 0, duration := 10,
                isUnavailableMessage := true, hasCaptions := true, requiresOAuth := true }]
      else none

/-! ### The orchestrator's fixed method list -/

/-- Environment of one full orchestrator run.  The HTML and Data API
strategies are embedded concretely; the five remaining strategies
(`direct_timedtext`, `direct_timedtext_asr`, `invidious`, `rapidapi`,
`gotranscript`) are abstracted to their observable outcome. -/
structure HybridEnv where
  htmlFetcherAvailable : Bool
  htmlEnv : HtmlEnv
  directTimedtext : MethodOutcome
  directTimedtextAsr : MethodOutcome
  invidious : MethodOutcome
  rapidapi : MethodOutcome
  gotranscript : MethodOutcome
  dataApi : DataApiEnv
  deriving DecidableEq

/-- The method list of `get_transcript` (lines 107-116), with
`method.__name__.replace("_method_", "")` as the recorded names, in source
order.  `_method_html` returns `None` when the HTML fetcher is unavailable
(lines 154-160); neither the HTML method nor the Data API method can raise
(each catches internally). -/
def hybridMethods (env : HybridEnv) (videoId language : String) :
    List (String × MethodOutcome) :=
  [("html",
    if env.htmlFetcherAvailable then
      .ok (some (htmlGetTranscript env.htmlEnv videoId language))
    else .ok none),
   ("direct_timedtext", env.directTimedtext),
   ("direct_timedtext_asr", env.directTimedtextAsr),
   ("invidious", env.invidious),
   ("rapidapi", env.rapidapi),
   ("gotranscript", env.gotranscript),
   ("youtube_data_api", .ok (method_youtube_data_api env.dataApi videoId language))]

/-- The seven strategy names in source order. -/
def hybridMethodNames : List String :=
  ["html", "direct_timedtext", "direct_timedtext_asr", "invidious", "rapidapi",
   "gotranscript", "youtube_data_api"]

/-- `YouTubeTranscriptFetcher.get_transcript` of the hybrid fetcher: reset
`self.errors` (line 103) and run the method loop. -/
def get_transcript (env : HybridEnv) (videoId language : String) : RunState :=
  runMethods videoId [] (hybridMethods env videoId language)

theorem hybridMethods_names (env : HybridEnv) (videoId language : String) :
    (hybridMethods env videoId language).map Prod.fst = hybridMethodNames := rfl

/-- Core loop invariant: a run either short-circuits on some method's truthy
return, or returns the fallback sentinel having recorded exactly the raising
methods. -/
theorem runMethods_spec (videoId : String) :
    ∀ (ms : List (String × MethodOutcome)) (errors : List (String × String)),
      (∃ name res, (name, MethodOutcome.ok (some res)) ∈ ms ∧ res ≠ [] ∧
        (runMethods videoId errors ms).result = res) ∨
      ((runMethods videoId errors ms).result =
          [fallbackSegment videoId (errors ++ excEntries ms)] ∧
        (runMethods videoId errors ms).errors = errors ++ excEntries ms) := by
  intro ms
  induction ms with
  | nil =>
    intro errors
    right
    constructor
    · simp [runMethods, excEntries]
    · simp [runMethods, excEntries]
  | cons p rest ih =>
    intro errors
    obtain ⟨name, out⟩ := p
    cases out with
    | ok res =>
      cases ht : truthy res with
      | true =>
        left
        match res, ht with
        | some (a :: l), _ =>
          exact ⟨name, a :: l, by simp, by simp,
            by simp [runMethods, truthy]⟩
      | false =>
        have hfm : excEntries ((name, MethodOutcome.ok res) :: rest) = excEntries rest := by
          simp [excEntries]
        rcases ih errors with ⟨n, r, hmem, hne, hres⟩ | ⟨h1, h2⟩
        · left
          refine ⟨n, r, List.mem_cons_of_mem _ hmem, hne, ?_⟩
          simpa [runMethods, ht] using hres
        · right
          constructor
          · rw [hfm]; simpa [runMethods, ht] using h1
          · rw [hfm]; simpa [runMethods, ht] using h2
    | exc e =>
      have hfm : excEntries ((name, MethodOutcome.exc e) :: rest) =
          (name, e) :: excEntries rest := by
        simp [excEntries]
      rcases ih (errors ++ [(name, e)]) with ⟨n, r, hmem, hne, hres⟩ | ⟨h1, h2⟩
      · left
        refine ⟨n, r, List.mem_cons_of_mem _ hmem, hne, ?_⟩
        simpa [runMethods] using hres
      · right
        constructor
        · rw [hfm]
          have : errors ++ [(name, e)] ++ excEntries rest =
              errors ++ ((name, e) :: excEntries rest) := by simp
          rw [← this]
          simpa [runMethods] using h1
        · rw [hfm]
          have : errors ++ [(name, e)] ++ excEntries rest =
              errors ++ ((name, e) :: excEntries rest) := by simp
          rw [← this]
          simpa [runMethods] using h2

/-- Core loop invariant for the invocation trace: the invoked methods form a
prefix of the method list, and every invoked method except possibly the last
had a failing outcome. -/
theorem runMethods_invoked (videoId : String) :
    ∀ (ms : List (String × MethodOutcome)) (errors : List (String × String)),
      ∃ n, n ≤ ms.length ∧
        (runMethods videoId errors ms).invoked = (ms.map Prod.fst).take n ∧
        ∀ p ∈ ms.take (n - 1), outcomeFails p.2 = true := by
  intro ms
  induction ms with
  | nil =>
    intro errors
    exact ⟨0, by simp, by simp [runMethods], by simp⟩
  | cons p rest ih =>
    intro errors
    obtain ⟨name, out⟩ := p
    cases out with
    | ok res =>
      cases ht : truthy res with
      | true =>
        refine ⟨1, by simp, ?_, by simp⟩
        simp [runMethods, ht]
      | false =>
        rcases ih errors with ⟨n, hn, hinv, hfail⟩
        refine ⟨n + 1, by simpa using hn, ?_, ?_⟩
        · simp only [runMethods, ht, if_neg (by simp [ht] : ¬ truthy res = true)]
          simp [hinv]
        · intro q hq
          cases n with
          | zero => simp at hq
          | succ m =>
            simp only [Nat.add_sub_cancel, List.take_succ_cons] at hq
            rcases List.mem_cons.mp hq with rfl | hq'
            · simp [outcomeFails, ht]
            · exact hfail q (by simpa using hq')
    | exc e =>
      rcases ih (errors ++ [(name, e)]) with ⟨n, hn, hinv, hfail⟩
      refine ⟨n + 1, by simpa using hn, ?_, ?_⟩
      · simp only [runMethods]
        simp [hinv]
      · intro q hq
        cases n with
        | zero => simp at hq
        | succ m =>
          simp only [Nat.add_sub_cancel, List.take_succ_cons] at hq
          rcases List.mem_cons.mp hq with rfl | hq'
          · simp [outcomeFails]
          · exact hfail q (by simpa using hq')

/-- Claim C1 counterexample: the claim says a successfully returned (i.e.
short-circuited) transcript never carries `isUnavailableMessage`.  But when the
HTML fetcher's page fetch fails (HTTP 404), `_method_html` returns the truthy
one-element error response, the orchestrator short-circuits on it — only
`html` is ever invoked — and the returned segment carries the marker. -/
theorem C1_counterexample :
    (get_transcript
        { htmlFetcherAvailable := true,
          htmlEnv := { pageStatus := 404, playerTracks := none, captionStatus := 200,
                       captionJson := none },
          directTimedtext := .ok none, directTimedtextAsr := .ok none,
          invidious := .ok none, rapidapi := .ok none, gotranscript := .ok none,
          dataApi := { apiKeyPresent := false, resp := none } }
        "dQw4w9WgXcQ" "en").result = create_error_response "dQw4w9WgXcQ" ∧
    (get_transcript
        { htmlFetcherAvailable := true,
          htmlEnv := { pageStatus := 404, playerTracks := none, captionStatus := 200,
                       captionJson := none },
          directTimedtext := .ok none, directTimedtextAsr := .ok none,
          invidious := .ok none, rapidapi := .ok none, gotranscript := .ok none,
          dataApi := { apiKeyPresent := false, resp := none } }
        "dQw4w9WgXcQ" "en").invoked = ["html"] ∧
    ["html"] ≠ hybridMethodNames ∧
    ((get_transcript
        { htmlFetcherAvailable := true,
          htmlEnv := { pageStatus := 404, playerTracks := none, captionStatus := 200,
                       captionJson := none },
          directTimedtext := .ok none, directTimedtextAsr := .ok none,
          invidious := .ok none, rapidapi := .ok none, gotranscript := .ok none,
          dataApi := { apiKeyPresent := false, resp := none } }
        "dQw4w9WgXcQ" "en").result.head?.map Segment.isUnavailableMessage) = some true := by
  refine ⟨by decide, by decide, by decide, by decide⟩

/-- Claim C1 (amended): the short-circuit checks only non-emptiness, so a
successfully returned transcript can carry `isUnavailableMessage`: whenever
the HTML fetcher is available and its page fetch fails, `get_transcript`
returns the HTML error response via the first method's truthy return (only
`html` is invoked), and every segment of that result carries the marker. -/
theorem C1_short_circuit_sentinel :
    ∀ (env : HybridEnv) (videoId language : String),
      env.htmlFetcherAvailable = true → env.htmlEnv.pageStatus ≠ 200 →
      (get_transcript env videoId language).result = create_error_response videoId ∧
      (get_transcript env videoId language).invoked = ["html"] ∧
      ∀ seg ∈ (get_transcript env videoId language).result,
        seg.isUnavailableMessage = true := by
  intro env vid lang hav hst
  have hhtml : htmlGetTranscript env.htmlEnv vid lang = create_error_response vid := by
    unfold htmlGetTranscript
    rw [if_pos hst]
  refine ⟨?_, ?_, ?_⟩
  · simp [get_transcript, hybridMethods, runMethods, hav, hhtml, truthy,
      create_error_response]
  · simp [get_transcript, hybridMethods, runMethods, hav, hhtml, truthy,
      create_error_response]
  · intro seg hseg
    simp only [get_transcript, hybridMethods, hav, if_pos, hhtml] at hseg
    simp [runMethods, truthy, create_error_response] at hseg
    simp [hseg, create_error_response]

/-- Claim C1 witness: a concrete environment with a failed HTML page fetch,
satisfying the amended short-circuit-sentinel theorem. -/
theorem C1_short_circuit_witness :
    (get_transcript
        { htmlFetcherAvailable := true,
          htmlEnv := { pageStatus := 500, playerTracks := none, captionStatus := 200,
                       captionJson := none },
          directTimedtext := .exc "timeout", directTimedtextAsr := .ok none,
          invidious := .ok none, rapidapi := .ok none, gotranscript := .ok none,
          dataApi := { apiKeyPresent := false, resp := none } }
        "abc123def45" "en").result = create_error_response "abc123def45" ∧
    (get_transcript
        { htmlFetcherAvailable := true,
          htmlEnv := { pageStatus := 500, playerTracks := none, captionStatus := 200,
                       captionJson := none },
          directTimedtext := .exc "timeout", directTimedtextAsr := .ok none,
          invidious := .ok none, rapidapi := .ok none, gotranscript := .ok none,
          dataApi := { apiKeyPresent := false, resp := none } }
        "abc123def45" "en").invoked = ["html"] ∧
    ∀ seg ∈ (get_transcript
        { htmlFetcherAvailable := true,
          htmlEnv := { pageStatus := 500, playerTracks := none, captionStatus := 200,
                       captionJson := none },
          directTimedtext := .exc "timeout", directTimedtextAsr := .ok none,
          invidious := .ok none, rapidapi := .ok none, gotranscript := .ok none,
          dataApi := { apiKeyPresent := false, resp := none } }
        "abc123def45" "en").result, seg.isUnavailableMessage = true :=
  C1_short_circuit_sentinel
    { htmlFetcherAvailable := true,
      htmlEnv := { pageStatus := 500, playerTracks := none, captionStatus := 200,
                   captionJson := none },
      directTimedtext := .exc "timeout", directTimedtextAsr := .ok none,
      invidious := .ok none, rapidapi := .ok none, gotranscript := .ok none,
      dataApi := { apiKeyPresent := false, resp := none } }
    "abc123def45" "en" (by decide) (by decide)

/-- Claim C3 counterexample: the claim puts direct timed-text first, then
auto-generated captions, then HTML, then the Data API, then the third-party
mirrors last.  The source order is different: `html` is first (not
`direct_timedtext`), and `youtube_data_api` comes after all three mirror
proxies, i.e. last. -/
theorem C3_counterexample :
    (hybridMethods
        { htmlFetcherAvailable := false,
          htmlEnv := { pageStatus := 200, playerTracks := none, captionStatus := 200,
                       captionJson := none },
          directTimedtext := .ok none, directTimedtextAsr := .ok none,
          invidious := .ok none, rapidapi := .ok none, gotranscript := .ok none,
          dataApi := { apiKeyPresent := false, resp := none } }
        "dQw4w9WgXcQ" "en").map Prod.fst = hybridMethodNames ∧
    hybridMethodNames.head? = some "html" ∧
    some "html" ≠ some "direct_timedtext" ∧
    hybridMethodNames.drop 3 = ["invidious", "rapidapi", "gotranscript", "youtube_data_api"] := by
  refine ⟨rfl, rfl, by decide, rfl⟩

/-- Claim C3 (amended): the strategies are tried in the fixed source order
`html`, `direct_timedtext`, `direct_timedtext_asr`, `invidious`, `rapidapi`,
`gotranscript`, `youtube_data_api`; the invoked methods always form a prefix
of this order, and every invoked method before the last one had definitively
failed (raised or returned a falsy value). -/
theorem C3_strategy_order :
    ∀ (env : HybridEnv) (videoId language : String), ∃ n, n ≤ 7 ∧
      (get_transcript env videoId language).invoked = hybridMethodNames.take n ∧
      ∀ p ∈ (hybridMethods env videoId language).take (n - 1),
        outcomeFails p.2 = true := by
  intro env vid lang
  rcases runMethods_invoked vid (hybridMethods env vid lang) [] with ⟨n, hn, hinv, hfail⟩
  refine ⟨n, ?_, ?_, hfail⟩
  · simpa using hn
  · rw [show (get_transcript env vid lang) = runMethods vid [] (hybridMethods env vid lang)
        from rfl, hinv, hybridMethods_names]

/-- Claim C4: for every environment — including ones in which strategies raise
exceptions — `get_transcript` returns a well-formed, non-empty list: either a
non-empty transcript returned by some method, or the single fallback sentinel
carrying exactly the recorded per-method errors.  No exception propagates to
the caller. -/
theorem C4_no_exception_escape :
    ∀ (env : HybridEnv) (videoId language : String),
      (get_transcript env videoId language).result ≠ [] ∧
      ((∃ name res,
          (name, MethodOutcome.ok (some res)) ∈ hybridMethods env videoId language ∧
          res ≠ [] ∧ (get_transcript env videoId language).result = res) ∨
        ((get_transcript env videoId language).result =
            [fallbackSegment videoId (excEntries (hybridMethods env videoId language))] ∧
          (get_transcript env videoId language).errors =
            excEntries (hybridMethods env videoId language))) := by
  intro env vid lang
  rcases runMethods_spec vid (hybridMethods env vid lang) [] with
    ⟨name, res, hmem, hne, hres⟩ | ⟨h1, h2⟩
  · constructor
    · show (runMethods vid [] (hybridMethods env vid lang)).result ≠ []
      rw [hres]; exact hne
    · exact Or.inl ⟨name, res, hmem, hne, hres⟩
  · constructor
    · show (runMethods vid [] (hybridMethods env vid lang)).result ≠ []
      rw [h1]; simp
    · right
      constructor
      · show (runMethods vid [] (hybridMethods env vid lang)).result = _
        rw [h1]; simp
      · show (runMethods vid [] (hybridMethods env vid lang)).errors = _
        rw [h2]; simp

/-- Claim C5 counterexample: the claim says the exhaustion diagnostics contain
one entry for each strategy that was tried, whether it raised or merely
produced no usable output.  In an environment where all seven strategies
return `None` without raising, all seven are invoked, the fallback sentinel is
returned, yet `self.errors` is empty — 0 entries, not 7. -/
theorem C5_counterexample :
    (get_transcript
        { htmlFetcherAvailable := false,
          htmlEnv := { pageStatus := 200, playerTracks := none, captionStatus := 200,
                       captionJson := none },
          directTimedtext := .ok none, directTimedtextAsr := .ok none,
          invidious := .ok none, rapidapi := .ok none, gotranscript := .ok none,
          dataApi := { apiKeyPresent := false, resp := none } }
        "vid12345678" "en").result = [fallbackSegment "vid12345678" []] ∧
    (get_transcript
        { htmlFetcherAvailable := false,
          htmlEnv := { pageStatus := 200, playerTracks := none, captionStatus := 200,
                       captionJson := none },
          directTimedtext := .ok none, directTimedtextAsr := .ok none,
          invidious := .ok none, rapidapi := .ok none, gotranscript := .ok none,
          dataApi := { apiKeyPresent := false, resp := none } }
        "vid12345678" "en").invoked.length = 7 ∧
    (get_transcript
        { htmlFetcherAvailable := false,
          htmlEnv := { pageStatus := 200, playerTracks := none, captionStatus := 200,
                       captionJson := none },
          directTimedtext := .ok none, directTimedtextAsr := .ok none,
          invidious := .ok none, rapidapi := .ok none, gotranscript := .ok none,
          dataApi := { apiKeyPresent := false, resp := none } }
        "vid12345678" "en").errors.length = 0 ∧
    (0 : Nat) ≠ 7 := by
  refine ⟨by decide, by decide, by decide, by decide⟩

/-- Claim C5 (amended): when every strategy fails (raises or returns nothing
usable), the result is the fallback sentinel and the accumulated diagnostics
contain exactly one entry per strategy that RAISED an exception; strategies
that merely returned no usable output contribute no entry. -/
theorem C5_exhaustion_diagnostics :
    ∀ (env : HybridEnv) (videoId language : String),
      (∀ p ∈ hybridMethods env videoId language, outcomeFails p.2 = true) →
      (get_transcript env videoId language).errors =
          excEntries (hybridMethods env videoId language) ∧
      (get_transcript env videoId language).result =
          [fallbackSegment videoId (excEntries (hybridMethods env videoId language))] := by
  intro env vid lang hall
  rcases runMethods_spec vid (hybridMethods env vid lang) [] with
    ⟨name, res, hmem, hne, _⟩ | ⟨h1, h2⟩
  · exfalso
    have := hall _ hmem
    simp only [outcomeFails] at this
    match res, hne with
    | a :: l, _ => simp [truthy] at this
  · constructor
    · show (runMethods vid [] (hybridMethods env vid lang)).errors = _
      rw [h2]; simp
    · show (runMethods vid [] (hybridMethods env vid lang)).result = _
      rw [h1]; simp

/-- Claim C5 witness: an environment in which one strategy raises and the rest
return `None`: the diagnostics hold exactly the raising strategy's entry. -/
theorem C5_exhaustion_witness :
    (get_transcript
        { htmlFetcherAvailable := false,
          htmlEnv := { pageStatus := 200, playerTracks := none, captionStatus := 200,
                       captionJson := none },
          directTimedtext := .exc "HTTPSConnectionPool timeout",
          directTimedtextAsr := .ok none,
          invidious := .ok none, rapidapi := .ok none, gotranscript := .ok none,
          dataApi := { apiKeyPresent := false, resp := none } }
        "vid12345678" "en").errors =
      excEntries (hybridMethods
        { htmlFetcherAvailable := false,
          htmlEnv := { pageStatus := 200, playerTracks := none, captionStatus := 200,
                       captionJson := none },
          directTimedtext := .exc "HTTPSConnectionPool timeout",
          directTimedtextAsr := .ok none,
          invidious := .ok none, rapidapi := .ok none, gotranscript := .ok none,
          dataApi := { apiKeyPresent := false, resp := none } }
        "vid12345678" "en") ∧
    excEntries (hybridMethods
        { htmlFetcherAvailable := false,
          htmlEnv := { pageStatus := 200, playerTracks := none, captionStatus := 200,
                       captionJson := none },
          directTimedtext := .exc "HTTPSConnectionPool timeout",
          directTimedtextAsr := .ok none,
          invidious := .ok none, rapidapi := .ok none, gotranscript := .ok none,
          dataApi := { apiKeyPresent := false, resp := none } }
        "vid12345678" "en") = [("direct_timedtext", "HTTPSConnectionPool timeout")] :=
  ⟨(C5_exhaustion_diagnostics
      { htmlFetcherAvailable := false,
        htmlEnv := { pageStatus := 200, playerTracks := none, captionStatus := 200,
                     captionJson := none },
        directTimedtext := .exc "HTTPSConnectionPool timeout",
        directTimedtextAsr := .ok none,
        invidious := .ok none, rapidapi := .ok none, gotranscript := .ok none,
        dataApi := { apiKeyPresent := false, resp := none } }
      "vid12345678" "en" (by decide)).1, by decide⟩

/-- Claim C10: the hybrid orchestrator's Data API strategy never returns
transcript content: for every environment, it returns either `None` or a
single segment flagged `isUnavailableMessage` (with `hasCaptions` and
`requiresOAuth` set) reporting that captions exist but need OAuth. -/
theorem C10_data_api_never_content :
    ∀ (env : DataApiEnv) (videoId language : String),
      method_youtube_data_api env videoId language = none ∨
      ∃ seg, method_youtube_data_api env videoId language = some [seg] ∧
        seg.isUnavailableMessage = true ∧ seg.hasCaptions = true ∧
        seg.requiresOAuth = true := by
  intro env vid lang
  unfold method_youtube_data_api
  split
  · exact Or.inl rfl
  · split
    · exact Or.inl rfl
    · split
      · exact Or.inl rfl
      · split
        · exact Or.inl rfl
        · split
          · exact Or.inr ⟨_, rfl, rfl, rfl, rfl⟩
          · exact Or.inl rfl

/-! ## The timedtext retry loop (`youtube_data_api_fetcher.py` lines 196-274)

`_get_transcript_from_timedtext` runs `while retry_count < max_retries` with
`max_retries = 3`.  One iteration tries three URL variants and returns the
first non-empty parsed segment list; otherwise it increments `retry_count` and
sleeps `(2 ** retry_count) * (0.5 + random.random())`; an exception in the
iteration also increments but sleeps `retry_count * 1.5`.  Exhaustion returns
`[]`. -/

/-- Outcome of one iteration of the inner URL loop: a returned non-empty
segment list (head and tail, so non-emptiness is structural), nothing found,
or a raised exception. -/
inductive AttemptOutcome where
  | found (seg : Segment) (rest : List Segment)
  | notFound
  | exc (msg : String)
  deriving DecidableEq

/-- An iteration that did not return segments. -/
def isFailure : AttemptOutcome → Bool
  | .found _ _ => false
  | _ => true

/-- The sleep inserted after failing iteration `rc` (the counter has been
incremented to `rc + 1` when the backoff is computed). -/
def failSleep (rand : Nat → ℚ) (rc : Nat) : AttemptOutcome → ℚ
  | .notFound => (2 ^ (rc + 1) : ℚ) * (1 / 2 + rand rc)
  | .exc _ => ((rc + 1 : Nat) : ℚ) * (3 / 2)
  | .found _ _ => 0

/-- The retry loop with its sleeps traced.  `attempts n` is the outcome of
iteration `n` (counting from 0); `rand n` is the `random.random()` sample for
iteration `n`'s backoff.  No sleep follows the final iteration (the loop exits
first); exhaustion returns the empty list. -/
def timedtextFrom (attempts : Nat → AttemptOutcome) (rand : Nat → ℚ)
    (maxRetries : Nat) : Nat → List ℚ → List Segment × List ℚ
  | rc, sleeps =>
    if h : rc < maxRetries then
      match attempts rc with
      | .found seg rest => (seg :: rest, sleeps)
      | .notFound =>
        if rc + 1 < maxRetries then
          timedtextFrom attempts rand maxRetries (rc + 1)
            (sleeps ++ [(2 ^ (rc + 1) : ℚ) * (1 / 2 + rand rc)])
        else timedtextFrom attempts rand maxRetries (rc + 1) sleeps
      | .exc _ =>
        if rc + 1 < maxRetries then
          timedtextFrom attempts rand maxRetries (rc + 1)
            (sleeps ++ [((rc + 1 : Nat) : ℚ) * (3 / 2)])
        else timedtextFrom attempts rand maxRetries (rc + 1) sleeps
    else ([], sleeps)
  termination_by rc _ => maxRetries - rc
  decreasing_by all_goals omega

/-- `_get_transcript_from_timedtext`: `max_retries = 3`, `retry_count = 0`,
no sleeps yet. -/
def get_transcript_from_timedtext (attempts : Nat → AttemptOutcome)
    (rand : Nat → ℚ) : List Segment × List ℚ :=
  timedtextFrom attempts rand 3 0 []

theorem timedtextFrom_exhaust (attempts : Nat → AttemptOutcome) (rand : Nat → ℚ)
    (h0 : isFailure (attempts 0) = true) (h1 : isFailure (attempts 1) = true)
    (h2 : isFailure (attempts 2) = true) :
    get_transcript_from_timedtext attempts rand =
      ([], [failSleep rand 0 (attempts 0), failSleep rand 1 (attempts 1)]) := by
  have e3 : ∀ sleeps, timedtextFrom attempts rand 3 3 sleeps = ([], sleeps) := by
    intro sleeps
    rw [timedtextFrom]
    simp
  have e2 : ∀ sleeps, timedtextFrom attempts rand 3 2 sleeps = ([], sleeps) := by
    intro sleeps
    rw [timedtextFrom]
    cases ha : attempts 2 with
    | found s r => simp [isFailure, ha] at h2
    | notFound => simp [e3]
    | exc m => simp [e3]
  have e1 : ∀ sleeps, timedtextFrom attempts rand 3 1 sleeps =
      ([], sleeps ++ [failSleep rand 1 (attempts 1)]) := by
    intro sleeps
    rw [timedtextFrom]
    cases ha : attempts 1 with
    | found s r => simp [isFailure, ha] at h1
    | notFound => simp [e2, failSleep, ha]
    | exc m => simp [e2, failSleep, ha]
  unfold get_transcript_from_timedtext
  rw [timedtextFrom]
  cases ha : attempts 0 with
  | found s r => simp [isFailure, ha] at h0
  | notFound => simp [e1, failSleep, ha]
  | exc m => simp [e1, failSleep, ha]

/-- Claim C8 counterexample: the claim says non-rate-limit failures are not
retried (immediate return) and every wait is `(2^n)*(0.5+random())`.  But on
three consecutive exceptions (e.g. an XML parse error, with the random source
fixed at 0) the loop retries anyway, sleeping `1*1.5` and `2*1.5` seconds —
not the claimed `2^1*(0.5+0)` — and finally returns the empty list rather than
the last failure. -/
theorem C8_counterexample :
    get_transcript_from_timedtext (fun _ => .exc "XML parse error") (fun _ => 0) =
      ([], [3 / 2, 3]) ∧
    ([3 / 2, 3] : List ℚ).length ≠ 0 ∧
    (3 / 2 : ℚ) ≠ 2 ^ 1 * (1 / 2 + 0) := by
  refine ⟨?_, by norm_num, by norm_num⟩
  have h := timedtextFrom_exhaust (fun _ => .exc "XML parse error") (fun _ => 0)
    rfl rfl rfl
  rw [h]
  norm_num [failSleep]

/-- Claim C8 (amended): the loop retries every failure up to the 3 attempts
regardless of its nature: after a failed attempt the wait is
`(2^n)*(0.5+random())` seconds only for a no-transcript attempt `n`; an
exception attempt instead waits `n * 1.5` seconds; and after the attempts are
exhausted the function returns the empty list (not the last failure).  No
rate-limit classification exists in this loop. -/
theorem C8_retry_backoff (attempts : Nat → AttemptOutcome) (rand : Nat → ℚ)
    (h0 : isFailure (attempts 0) = true) (h1 : isFailure (attempts 1) = true)
    (h2 : isFailure (attempts 2) = true) :
    get_transcript_from_timedtext attempts rand =
      ([], [failSleep rand 0 (attempts 0), failSleep rand 1 (attempts 1)]) :=
  timedtextFrom_exhaust attempts rand h0 h1 h2

/-- Claim C8 witness: three no-transcript attempts with the random source at
1/2 sleep 2 and 4 seconds and end with the empty list. -/
theorem C8_retry_backoff_witness :
    get_transcript_from_timedtext (fun _ => .notFound) (fun _ => (1 : ℚ) / 2) =
      ([], [failSleep (fun _ => (1 : ℚ) / 2) 0 .notFound,
            failSleep (fun _ => (1 : ℚ) / 2) 1 .notFound]) ∧
    failSleep (fun _ => (1 : ℚ) / 2) 0 .notFound = 2 ∧
    failSleep (fun _ => (1 : ℚ) / 2) 1 .notFound = 4 :=
  ⟨C8_retry_backoff (fun _ => .notFound) (fun _ => (1 : ℚ) / 2) rfl rfl rfl,
    by norm_num [failSleep], by norm_num [failSleep]⟩

/-! ## The caching wrapper (`app.py` lines 70-115) -/

/-- One entry of the module-level `transcript_cache` dict: the stored result
and its absolute expiry instant (modelled in seconds). -/
structure CacheEntry where
  data : List Segment
  expires : Nat
  deriving DecidableEq

/-- `get_cache_key` (lines 70-72): `f"{video_id}:{language}"`. -/
def get_cache_key (videoId language : String) : String :=
  videoId ++ ":" ++ language

/-- Dictionary lookup in the cache, modelled as an association list in which
later inserts shadow earlier ones. -/
def cacheLookup : List (String × CacheEntry) → String → Option CacheEntry
  | [], _ => none
  | (k, v) :: rest, key => if k = key then some v else cacheLookup rest key

/-- The body of the `cache_transcript` decorator (lines 74-97) around a pure
fetch function, at current time `now` (seconds since epoch): return the
cached entry when present and unexpired; otherwise invoke the wrapped function
and store whatever it returned with expiry `now + 24` hours.  The final
boolean records whether the wrapped function was invoked. -/
def cache_transcript (fetch : String → String → List Segment)
    (cache : List (String × CacheEntry)) (now : Nat) (videoId language : String) :
    List Segment × List (String × CacheEntry) × Bool :=
  let key := get_cache_key videoId language
  match cacheLookup cache key with
  | some entry =>
    if now < entry.expires then (entry.data, cache, false)
    else
      let result := fetch videoId language
      (result, (key, { data := result, expires := now + 24 * 3600 }) :: cache, true)
  | none =>
    let result := fetch videoId language
    (result, (key, { data := result, expires := now + 24 * 3600 }) :: cache, true)

/-- `fetch_transcript` (lines 99-115): run the hybrid fetcher and return its
result unchanged — the sentinel check on lines 106-111 only logs. -/
def fetch_transcript (env : HybridEnv) (videoId language : String) : List Segment :=
  (get_transcript env videoId language).result

/-- Claim C9: on a cache miss the wrapper invokes the wrapped fetch and stores
whatever it returned — the unavailability sentinel included — under
`videoId:language` with a 24-hour expiry; a second call with the same key
before expiry returns the identical stored result without invoking the wrapped
function again (so a failed resolution is not retried until the entry
expires). -/
theorem C9_cache_roundtrip :
    ∀ (fetch : String → String → List Segment) (cache : List (String × CacheEntry))
      (now later : Nat) (videoId language : String),
      cacheLookup cache (get_cache_key videoId language) = none →
      later < now + 24 * 3600 →
      (cache_transcript fetch cache now videoId language).1 = fetch videoId language ∧
      (cache_transcript fetch cache now videoId language).2.2 = true ∧
      (cache_transcript fetch
          (cache_transcript fetch cache now videoId language).2.1
          later videoId language).1 = fetch videoId language ∧
      (cache_transcript fetch
          (cache_transcript fetch cache now videoId language).2.1
          later videoId language).2.2 = false := by
  intro fetch cache now later vid lang hmiss hlt
  have hfirst : cache_transcript fetch cache now vid lang =
      (fetch vid lang,
        (get_cache_key vid lang,
          { data := fetch vid lang, expires := now + 24 * 3600 }) :: cache, true) := by
    simp [cache_transcript, hmiss]
  refine ⟨by rw [hfirst], by rw [hfirst], ?_, ?_⟩
  · rw [hfirst]
    simp [cache_transcript, cacheLookup, hlt]
  · rw [hfirst]
    simp [cache_transcript, cacheLookup, hlt]

/-- Claim C9 witness: a fetch that resolves to the one-element unavailability
sentinel is cached at time 0 and served from the cache one second before the
24-hour expiry, without a second fetch. -/
theorem C9_cache_roundtrip_witness :
    cacheLookup [] (get_cache_key "dQw4w9WgXcQ" "en") = none ∧
    (86399 : Nat) < 0 + 24 * 3600 ∧
    ((cache_transcript (fun v _ => create_error_response v) [] 0 "dQw4w9WgXcQ" "en").1 =
        create_error_response "dQw4w9WgXcQ" ∧
      (cache_transcript (fun v _ => create_error_response v) [] 0 "dQw4w9WgXcQ" "en").2.2 =
        true ∧
      (cache_transcript (fun v _ => create_error_response v)
          (cache_transcript (fun v _ => create_error_response v) [] 0
            "dQw4w9WgXcQ" "en").2.1 86399 "dQw4w9WgXcQ" "en").1 =
        create_error_response "dQw4w9WgXcQ" ∧
      (cache_transcript (fun v _ => create_error_response v)
          (cache_transcript (fun v _ => create_error_response v) [] 0
            "dQw4w9WgXcQ" "en").2.1 86399 "dQw4w9WgXcQ" "en").2.2 = false) :=
  ⟨rfl, by norm_num,
    C9_cache_roundtrip (fun v _ => create_error_response v) [] 0 86399
      "dQw4w9WgXcQ" "en" rfl (by norm_num)⟩

end YT
